import Mathlib

/-!
Verification of `typing_practice.py` (Henryee77/typing-practice).

The program is a vocabulary drill with two front ends, a PyQt window
(`MyWindow`) and a terminal loop (`terminal_typing_practice`), sharing a
word list, a success counter and a translation scraper
(`crawl_translation`).  This file gives a shallow embedding of the
behaviourally relevant parts:

* randomness is passed in as an index `idx` choosing the sampled element;
* wall-clock time is passed in as abstract `Nat` timestamps;
* the network and HTML parsing of `crawl_translation` are passed in as the
  result of the BeautifulSoup `find` call (an optional node);
* the file system of `read_file` is passed in as a partial map from file
  names to contents;
* Python exceptions become `Except PyError`; Python `str.strip` is modelled
  by `pyStrip` below.
-/

/-- Models Python `str.isspace` on a single character, for the ASCII
whitespace characters Python strips: space, tab, newline, carriage return,
vertical tab and form feed.  (Python also strips some non-ASCII Unicode
whitespace; the word lists and inputs at issue are ASCII-separated, and
nothing below depends on those characters.) -/
def pyIsSpace (c : Char) : Bool :=
  c = ' ' || c = '\t' || c = '\n' || c = '\r' || c = '\x0b' || c = '\x0c'

/-- Characters of a string with leading and trailing whitespace removed. -/
def stripChars (l : List Char) : List Char :=
  (l.dropWhile pyIsSpace).rdropWhile pyIsSpace

/-- Models Python `str.strip()`: the string without leading and trailing
whitespace. -/
def pyStrip (s : String) : String :=
  String.mk (stripChars s.data)

/-- Classes of Python exceptions the program can raise. -/
inductive PyError where
  | valueError
  | indexError
  | ioError
deriving DecidableEq, Repr

/-- Models `random.sample(population, 1)[0]` as used at lines 107, 169 and
183 of src/typing_practice.py.  CPython `random.sample` raises
`ValueError("Sample larger than population or is negative")` when the
requested sample size (here 1) exceeds the population size, i.e. exactly
when the population is empty; otherwise it returns one element of the
population.  The random choice is supplied as the index `idx`, reduced
modulo the length. -/
def random_sample_one (population : List String) (idx : Nat) : Except PyError String :=
  match population with
  | [] => Except.error PyError.valueError
  | _ :: _ => Except.ok (population.getD (idx % population.length) "")

/-- Models a parsed HTML node as produced by BeautifulSoup: either a text
node (NavigableString) or an element with a list of children. -/
inductive Node where
  | text (s : String)
  | elem (children : List Node)

mutual

/-- Models the BeautifulSoup `Tag.text` property: the concatenation of all
descendant strings, which is the empty string for an element with no text
descendants. -/
def Node.getText : Node → String
  | Node.text s => s
  | Node.elem cs => getTextList cs

/-- Concatenated text of a list of nodes. -/
def getTextList : List Node → String
  | [] => ""
  | n :: ns => Node.getText n ++ getTextList ns

end

/-- The `url_cand` list built at lines 136-138 of src/typing_practice.py:
a single Cambridge-dictionary URL with the word appended. -/
def url_cand (word : String) : List String :=
  ["https://dictionary.cambridge.org/zht/%E8%A9%9E%E5%85%B8/%E8%8B%B1%E8%AA%9E-%E6%BC%A2%E8%AA%9E-%E7%B9%81%E9%AB%94/" ++ word]

/-- Models `crawl_translation` (lines 118-150).  The network fetch and the
parse are summarised by `findResult`, the value of
`soup.find(class_='dtrans')` on the fetched page: `none` when no element of
class dtrans exists, `some tag` otherwise.  BeautifulSoup `Tag.__bool__`
returns `True` unconditionally (a tag is truthy even with no contents), so
`if target_class:` distinguishes exactly `some` from `none`: on `some tag`
the function returns `tag.text`, on `none` the sentinel.  The `for` loop
over `url_cand` returns on its first iteration in either branch; were
`url_cand` empty the Python function would fall through and return `None`,
which the `Option` result records. -/
def crawl_translation (word : String) (findResult : Option Node) : Option String :=
  match url_cand word with
  | [] => none
  | _ :: _ =>
    some (match findResult with
      | some tag => tag.getText
      | none => "No translation found.")

/-- Helper for `read_file`: splits a character list into lines, each line
keeping its terminating newline character, accumulating the current line in
reverse in `acc`. -/
def readlinesAux : List Char → List Char → List (List Char)
  | [], acc => if acc = [] then [] else [acc.reverse]
  | c :: cs, acc =>
    if c = '\n' then (acc.reverse ++ ['\n']) :: readlinesAux cs []
    else readlinesAux cs (c :: acc)

/-- Models Python `f.readlines()` on a text stream with contents `s`: the
list of lines of `s`, each entry keeping its trailing newline (the last
entry may lack one). -/
def pyReadlines (s : String) : List String :=
  (readlinesAux s.data []).map fun l => String.mk l

/-- Models `read_file` (lines 113-115).  The file system is the partial map
`fs` from file names to contents; `open` raises an `IOError`-class error
exactly when the file is absent, and otherwise the function returns
`f.readlines()`. -/
def read_file (fs : String → Option String) (file : String) : Except PyError (List String) :=
  match fs file with
  | none => Except.error PyError.ioError
  | some contents => Except.ok (pyReadlines contents)

/-- Decidable equality of `Except` results, so that concrete transitions
can be evaluated inside closed statements. -/
instance instDecidableEqExcept {ε α : Type} [DecidableEq ε] [DecidableEq α] :
    DecidableEq (Except ε α) := fun a b =>
  match a, b with
  | Except.error e1, Except.error e2 =>
    if h : e1 = e2 then Decidable.isTrue (by rw [h])
    else Decidable.isFalse (by intro hc; cases hc; exact h rfl)
  | Except.error _, Except.ok _ => Decidable.isFalse (by intro hc; cases hc)
  | Except.ok _, Except.error _ => Decidable.isFalse (by intro hc; cases hc)
  | Except.ok a1, Except.ok a2 =>
    if h : a1 = a2 then Decidable.isTrue (by rw [h])
    else Decidable.isFalse (by intro hc; cases hc; exact h rfl)

/-- Colour and text classes the GUI result label can show. -/
inductive Feedback where
  | empty
  | correct
  | wrong
  | finish
deriving DecidableEq, Repr

/-- Inputs a single GUI event handler call draws from the outside world:
the random index for a word draw, the current time, and the translation
text `crawl_translation` would produce for each word. -/
structure Env where
  idx : Nat
  now : Nat
  trans : String → String

/-- State of the `MyWindow` object (lines 12-110): the word list, the
success counter `succ_cnt`, the current word `cur_word`, the timestamp
`start_time`, the question label, the result label (as a `Feedback` class),
the input box, whether the window has been closed, and the count printed at
close (if any). -/
structure GuiState where
  words : List String
  succ_cnt : Nat
  cur_word : String
  start_time : Nat
  question : String
  feedback : Feedback
  inputbox : String
  closed : Bool
  reported : Option Nat
deriving DecidableEq, Repr

/-- Models `MyWindow.fetch_word` (lines 90-110): draws
`str(random.sample(self.words, 1)[0].strip())`, sets the question label to
the word and its translation, sets `start_time`, and returns the word. -/
def fetch_word (s : GuiState) (env : Env) : Except PyError (String × GuiState) :=
  match random_sample_one s.words env.idx with
  | Except.error e => Except.error e
  | Except.ok w =>
    let rand_word := pyStrip w
    Except.ok (rand_word,
      { s with question := rand_word ++ "  -  " ++ env.trans rand_word,
               start_time := env.now })

/-- Models `MyWindow.enter_text` (lines 60-88) on the typed text `input`:
strips the input, clears the input box, and then either counts a correct
answer and draws a new word, or closes the window on the exit phrase, or
marks the answer wrong and resets `start_time` to the current time. -/
def enter_text (s : GuiState) (input : String) (env : Env) : Except PyError GuiState :=
  let answer := pyStrip input
  let s1 := { s with inputbox := "" }
  if answer = s1.cur_word then
    match fetch_word { s1 with succ_cnt := s1.succ_cnt + 1, feedback := Feedback.correct } env with
    | Except.error e => Except.error e
    | Except.ok (w, s2) => Except.ok { s2 with cur_word := w }
  else if answer = "finish practice" then
    Except.ok { s1 with feedback := Feedback.finish, reported := some s1.succ_cnt,
                        closed := true }
  else
    Except.ok { s1 with feedback := Feedback.wrong, start_time := env.now }

/-- Models `MyWindow.__init__` (lines 13-58): zero successes, then
`self.cur_word = self.fetch_word()`. -/
def mywindow_init (words : List String) (env : Env) : Except PyError GuiState :=
  let s0 : GuiState :=
    { words := words, succ_cnt := 0, cur_word := "", start_time := 0,
      question := "", feedback := Feedback.empty, inputbox := "", closed := false,
      reported := none }
  match fetch_word s0 env with
  | Except.error e => Except.error e
  | Except.ok (w, s1) => Except.ok { s1 with cur_word := w }

/-- One GUI event: the text typed into the input box before pressing
enter, together with the external inputs of the handler call. -/
structure GuiInput where
  input : String
  env : Env

/-- Runs a sequence of GUI events through `enter_text`, stopping once the
window is closed. -/
def gui_run : GuiState → List GuiInput → Except PyError GuiState
  | s, [] => Except.ok s
  | s, i :: rest =>
    if s.closed then Except.ok s
    else
      match enter_text s i.input i.env with
      | Except.error e => Except.error e
      | Except.ok s2 => gui_run s2 rest

/-- State carried between iterations of the terminal loop (lines 169-185):
the current word `rand_word`, the counter `succ_cnt`, and the last value
assigned to `start_time`. -/
structure TermState where
  rand_word : String
  succ_cnt : Nat
  start_time : Nat
deriving DecidableEq, Repr

/-- Result of one terminal loop iteration: either the loop continues with a
new state, or `exit()` was called after printing the practiced count. -/
inductive StepResult where
  | next (s : TermState)
  | finished (reported : Nat)
deriving DecidableEq, Repr

/-- Models the code before the loop in `terminal_typing_practice`
(lines 169-170): the initial draw and a zero counter. -/
def terminal_init (words : List String) (idx : Nat) : Except PyError TermState :=
  match random_sample_one words idx with
  | Except.error e => Except.error e
  | Except.ok w => Except.ok { rand_word := pyStrip w, succ_cnt := 0, start_time := 0 }

/-- Models one iteration of the `while True` loop of
`terminal_typing_practice` (lines 171-185): the word is printed,
`start_time = time.time()` is assigned at the top of the iteration
(`promptTime`), the line `input` is read, and then the exit phrase is
checked first, the exact (unstripped) word second, anything else prints
wrong and loops. -/
def terminal_step (words : List String) (s : TermState) (promptTime : Nat)
    (input : String) (idx : Nat) : Except PyError StepResult :=
  let s1 := { s with start_time := promptTime }
  if input = "finish practice" then
    Except.ok (StepResult.finished s1.succ_cnt)
  else if input = s1.rand_word then
    match random_sample_one words idx with
    | Except.error e => Except.error e
    | Except.ok w =>
      Except.ok (StepResult.next { s1 with succ_cnt := s1.succ_cnt + 1, rand_word := pyStrip w })
  else
    Except.ok (StepResult.next s1)

/-- One terminal iteration input: the time read at the top of the
iteration, the line typed, and the random index for a possible redraw. -/
structure TermInput where
  promptTime : Nat
  input : String
  idx : Nat

/-- Runs a sequence of terminal iterations, stopping at `exit()`. -/
def terminal_run (words : List String) : TermState → List TermInput → Except PyError StepResult
  | s, [] => Except.ok (StepResult.next s)
  | s, i :: rest =>
    match terminal_step words s i.promptTime i.input i.idx with
    | Except.error e => Except.error e
    | Except.ok (StepResult.finished n) => Except.ok (StepResult.finished n)
    | Except.ok (StepResult.next s2) => terminal_run words s2 rest

/-- The word `str(random.sample(words, 1)[0].strip())` draws when the
random choice is index `idx`: the sampled element, stripped. -/
def drawn (words : List String) (idx : Nat) : String :=
  pyStrip (words.getD (idx % words.length) "")

/-- Success counter of a GUI transition result, for stating concrete
evaluations without binders. -/
def guiSucc : Except PyError GuiState → Option Nat
  | Except.ok s => some s.succ_cnt
  | Except.error _ => none

/-- View of a GUI transition result as (closed, succ_cnt, cur_word,
reported), for stating concrete evaluations without binders. -/
def guiView : Except PyError GuiState → Option (Bool × Nat × String × Option Nat)
  | Except.ok s => some (s.closed, s.succ_cnt, s.cur_word, s.reported)
  | Except.error _ => none

/-! Concrete session states and environments used by the closed witness and
counterexample statements below. -/

/-- Fixed environment: random index 0, time 7, every translation "t". -/
def exEnv : Env :=
  { idx := 0, now := 7, trans := fun _ => "t" }

/-- GUI session showing the word "hello" from a one-word list. -/
def gsHello : GuiState :=
  { words := ["hello"], succ_cnt := 0, cur_word := "hello", start_time := 0,
    question := "", feedback := Feedback.empty, inputbox := "", closed := false,
    reported := none }

/-- GUI session showing the word "world" from a one-word list. -/
def gsWorld : GuiState :=
  { words := ["world"], succ_cnt := 0, cur_word := "world", start_time := 0,
    question := "", feedback := Feedback.empty, inputbox := "", closed := false,
    reported := none }

/-- GUI session in which the current word is the exit phrase itself. -/
def gsFP : GuiState :=
  { words := ["finish practice"], succ_cnt := 0, cur_word := "finish practice",
    start_time := 0, question := "", feedback := Feedback.empty, inputbox := "",
    closed := false, reported := none }

/-- State `gsHello` after one wrong answer at time 7: the result label shows
wrong and `start_time` has moved to 7. -/
def gsHelloWrong : GuiState :=
  { gsHello with feedback := Feedback.wrong, start_time := 7 }

/-- State `gsHello` after the exit phrase: closed, reporting 0 successes. -/
def gsHelloFin : GuiState :=
  { gsHello with feedback := Feedback.finish, reported := some 0, closed := true }

/-- State `gsFP` after typing the exit phrase: the GUI counts it as a
correct answer and redraws, so the window stays open. -/
def gsFPCorrect : GuiState :=
  { gsFP with succ_cnt := 1, feedback := Feedback.correct,
              question := "finish practice  -  t", start_time := 7 }

/-- The state `mywindow_init [" hello "] exEnv` builds. -/
def gsInit : GuiState :=
  { words := [" hello "], succ_cnt := 0, cur_word := "hello", start_time := 7,
    question := "hello  -  t", feedback := Feedback.empty, inputbox := "",
    closed := false, reported := none }

/-- Two GUI events whose inputs are both wrong answers for `gsHello`. -/
def insWrong : List GuiInput :=
  [{ input := "x", env := exEnv }, { input := "y", env := exEnv }]

/-- Fixed file system holding one word file with two lines. -/
def fsEx : String → Option String :=
  fun f => if f = "Oxford 5000.txt" then some "ab\ncd\n" else none

/-- Terminal session showing the word "a". -/
def tsA : TermState :=
  { rand_word := "a", succ_cnt := 0, start_time := 0 }

/-- Terminal session showing the word "world". -/
def tsWorld : TermState :=
  { rand_word := "world", succ_cnt := 0, start_time := 0 }

/-- Terminal session in which the current word is the exit phrase itself. -/
def tsFP : TermState :=
  { rand_word := "finish practice", succ_cnt := 0, start_time := 0 }

/-- Terminal session showing the exit phrase as its word, after 5
successes. -/
def tsFP5 : TermState :=
  { rand_word := "finish practice", succ_cnt := 5, start_time := 2 }

/-! ## Helper lemmas -/

lemma random_sample_one_eq (words : List String) (hw : words ≠ []) (idx : Nat) :
    random_sample_one words idx = Except.ok (words.getD (idx % words.length) "") := by
  cases words with
  | nil => exact absurd rfl hw
  | cons a l => rfl

lemma getD_mod_mem (words : List String) (hw : words ≠ []) (idx : Nat) :
    words.getD (idx % words.length) "" ∈ words := by
  have hlen : 0 < words.length := List.length_pos.mpr hw
  have hlt : idx % words.length < words.length := Nat.mod_lt _ hlen
  rw [List.getD_eq_getElem words "" hlt]
  exact List.getElem_mem hlt

lemma drawn_mem (words : List String) (hw : words ≠ []) (idx : Nat) :
    drawn words idx ∈ words.map pyStrip :=
  List.mem_map_of_mem pyStrip (getD_mod_mem words hw idx)

lemma stripChars_idem (l : List Char) : stripChars (stripChars l) = stripChars l := by
  unfold stripChars
  have h1 : List.dropWhile pyIsSpace ((List.dropWhile pyIsSpace l).rdropWhile pyIsSpace)
      = (List.dropWhile pyIsSpace l).rdropWhile pyIsSpace := by
    rw [List.dropWhile_eq_self_iff]
    intro hl
    obtain ⟨t, ht⟩ := List.rdropWhile_prefix pyIsSpace (List.dropWhile pyIsSpace l)
    have hlen : 0 < (List.dropWhile pyIsSpace l).length := by
      rw [← ht, List.length_append]
      omega
    have hnot := List.dropWhile_get_zero_not pyIsSpace l hlen
    have hget : ((List.dropWhile pyIsSpace l).rdropWhile pyIsSpace).get ⟨0, hl⟩
        = (List.dropWhile pyIsSpace l).get ⟨0, hlen⟩ := by
      have h0 : ((List.dropWhile pyIsSpace l).rdropWhile pyIsSpace)[0]?
          = (List.dropWhile pyIsSpace l)[0]? := by
        conv_rhs => rw [← ht]
        rw [List.getElem?_append_left hl]
      rw [List.getElem?_eq_getElem hl, List.getElem?_eq_getElem hlen] at h0
      simpa [List.get_eq_getElem] using h0
    rw [hget]
    exact hnot
  rw [h1, List.rdropWhile_idempotent]

lemma pyStrip_idem (s : String) : pyStrip (pyStrip s) = pyStrip s := by
  show String.mk (stripChars (stripChars s.data)) = String.mk (stripChars s.data)
  rw [stripChars_idem]

lemma readlinesAux_join (l : List Char) :
    ∀ acc, (readlinesAux l acc).flatten = acc.reverse ++ l := by
  induction l with
  | nil =>
    intro acc
    by_cases h : acc = [] <;> simp [readlinesAux, h]
  | cons c cs ih =>
    intro acc
    by_cases h : c = '\n'
    · subst h
      simp [readlinesAux, ih]
    · simp [readlinesAux, h, ih]

lemma readlinesAux_entries (l : List Char) :
    ∀ acc e, (∀ c ∈ acc, c ≠ '\n') → e ∈ readlinesAux l acc →
      e ≠ [] ∧ ∀ c ∈ e.dropLast, c ≠ '\n' := by
  induction l with
  | nil =>
    intro acc e hacc he
    by_cases h : acc = []
    · simp [readlinesAux, h] at he
    · simp only [readlinesAux, if_neg h, List.mem_singleton] at he
      subst he
      refine ⟨by simpa using h, fun c hc => ?_⟩
      have hsub : acc.reverse.dropLast ⊆ acc.reverse :=
        (List.dropLast_sublist acc.reverse).subset
      exact hacc c (List.mem_reverse.mp (hsub hc))
  | cons c cs ih =>
    intro acc e hacc he
    by_cases h : c = '\n'
    · subst h
      rw [show readlinesAux ('\n' :: cs) acc
            = (acc.reverse ++ ['\n']) :: readlinesAux cs [] from by
          simp [readlinesAux]] at he
      rcases List.mem_cons.mp he with he1 | he1
      · subst he1
        refine ⟨by simp, fun x hx => ?_⟩
        rw [List.dropLast_concat] at hx
        exact hacc x (List.mem_reverse.mp hx)
      · exact ih [] e (by simp) he1
    · rw [show readlinesAux (c :: cs) acc = readlinesAux cs (c :: acc) from by
          simp [readlinesAux, h]] at he
      refine ih (c :: acc) e ?_ he
      intro x hx
      rcases List.mem_cons.mp hx with rfl | hx
      · exact h
      · exact hacc x hx

lemma pyReadlines_join (s : String) :
    ((pyReadlines s).map String.data).flatten = s.data := by
  show (((readlinesAux s.data []).map (fun l => String.mk l)).map String.data).flatten = s.data
  rw [List.map_map]
  have : (String.data ∘ fun l => String.mk l) = id := rfl
  rw [this, List.map_id]
  simpa using readlinesAux_join s.data []

lemma pyReadlines_entries (s e : String) (he : e ∈ pyReadlines s) :
    e ≠ "" ∧ ∀ c ∈ e.data.dropLast, c ≠ '\n' := by
  simp only [pyReadlines, List.mem_map] at he
  obtain ⟨l, hl, rfl⟩ := he
  obtain ⟨h1, h2⟩ := readlinesAux_entries s.data [] l (by simp) hl
  refine ⟨fun hcon => h1 ?_, h2⟩
  exact congrArg String.data hcon

lemma fetch_word_eq (s : GuiState) (env : Env) (hw : s.words ≠ []) :
    fetch_word s env = Except.ok (drawn s.words env.idx,
      { s with question := drawn s.words env.idx ++ "  -  " ++ env.trans (drawn s.words env.idx),
               start_time := env.now }) := by
  unfold fetch_word
  rw [random_sample_one_eq s.words hw env.idx]
  rfl

lemma fetch_word_words_ne (s : GuiState) (env : Env) (w : String) (s2 : GuiState)
    (h : fetch_word s env = Except.ok (w, s2)) : s.words ≠ [] := by
  intro hw
  unfold fetch_word at h
  rw [hw] at h
  simp [random_sample_one] at h

lemma fetch_word_inv (s : GuiState) (env : Env) (w : String) (s2 : GuiState)
    (h : fetch_word s env = Except.ok (w, s2)) :
    s.words ≠ [] ∧ w = drawn s.words env.idx ∧
      s2 = { s with question := w ++ "  -  " ++ env.trans w, start_time := env.now } := by
  have hw := fetch_word_words_ne s env w s2 h
  rw [fetch_word_eq s env hw] at h
  simp only [Except.ok.injEq, Prod.mk.injEq] at h
  obtain ⟨hw1, hs2⟩ := h
  exact ⟨hw, hw1.symm, by rw [← hs2, hw1]⟩

lemma fetch_word_strip_fixed (s : GuiState) (env : Env) (w : String) (s2 : GuiState)
    (h : fetch_word s env = Except.ok (w, s2)) : pyStrip w = w := by
  obtain ⟨-, hw, -⟩ := fetch_word_inv s env w s2 h
  rw [hw]
  exact pyStrip_idem _

lemma enter_text_correct_eq (s : GuiState) (input : String) (env : Env)
    (h : pyStrip input = s.cur_word) (hw : s.words ≠ []) :
    enter_text s input env = Except.ok
      { s with inputbox := "", succ_cnt := s.succ_cnt + 1, feedback := Feedback.correct,
               cur_word := drawn s.words env.idx,
               question := drawn s.words env.idx ++ "  -  " ++ env.trans (drawn s.words env.idx),
               start_time := env.now } := by
  unfold enter_text
  rw [if_pos (show pyStrip input = _ from h)]
  rw [show ({ s with inputbox := "" } : GuiState).succ_cnt = s.succ_cnt from rfl]
  rw [fetch_word_eq { s with inputbox := "", succ_cnt := s.succ_cnt + 1, feedback := Feedback.correct } env hw]

lemma enter_text_finish_eq (s : GuiState) (input : String) (env : Env)
    (h1 : pyStrip input ≠ s.cur_word) (h2 : pyStrip input = "finish practice") :
    enter_text s input env = Except.ok
      { s with inputbox := "", feedback := Feedback.finish, reported := some s.succ_cnt,
               closed := true } := by
  unfold enter_text
  rw [if_neg (show ¬pyStrip input = _ from h1), if_pos h2]

lemma enter_text_wrong_eq (s : GuiState) (input : String) (env : Env)
    (h1 : pyStrip input ≠ s.cur_word) (h2 : pyStrip input ≠ "finish practice") :
    enter_text s input env = Except.ok
      { s with inputbox := "", feedback := Feedback.wrong, start_time := env.now } := by
  unfold enter_text
  rw [if_neg (show ¬pyStrip input = _ from h1), if_neg h2]

lemma enter_text_inv (s : GuiState) (input : String) (env : Env) (s' : GuiState)
    (h : enter_text s input env = Except.ok s') :
    s'.words = s.words ∧ s.succ_cnt ≤ s'.succ_cnt := by
  by_cases hc : pyStrip input = s.cur_word
  · have hw : s.words ≠ [] := by
      intro hnil
      unfold enter_text at h
      rw [if_pos (show pyStrip input = _ from hc)] at h
      unfold fetch_word at h
      rw [show ({ s with inputbox := "", succ_cnt := s.succ_cnt + 1, feedback := Feedback.correct } : GuiState).words = s.words from rfl, hnil] at h
      simp [random_sample_one] at h
    rw [enter_text_correct_eq s input env hc hw] at h
    cases h
    exact ⟨rfl, Nat.le_succ _⟩
  · by_cases hf : pyStrip input = "finish practice"
    · rw [enter_text_finish_eq s input env hc hf] at h
      cases h
      exact ⟨rfl, Nat.le_refl _⟩
    · rw [enter_text_wrong_eq s input env hc hf] at h
      cases h
      exact ⟨rfl, Nat.le_refl _⟩

lemma gui_run_mono (ins : List GuiInput) : ∀ s s' : GuiState,
    gui_run s ins = Except.ok s' → s.succ_cnt ≤ s'.succ_cnt := by
  induction ins with
  | nil =>
    intro s s' h
    cases h
    exact Nat.le_refl _
  | cons i rest ih =>
    intro s s' h
    unfold gui_run at h
    by_cases hcl : s.closed = true
    · rw [if_pos hcl] at h
      cases h
      exact Nat.le_refl _
    · rw [if_neg hcl] at h
      cases he : enter_text s i.input i.env with
      | error e => rw [he] at h; cases h
      | ok s2 =>
        rw [he] at h
        exact Nat.le_trans (enter_text_inv s i.input i.env s2 he).2 (ih s2 s' h)

lemma gui_run_wrong (ins : List GuiInput) : ∀ s s' : GuiState,
    (∀ i ∈ ins, pyStrip i.input ≠ s.cur_word ∧ pyStrip i.input ≠ "finish practice") →
    gui_run s ins = Except.ok s' → s'.cur_word = s.cur_word ∧ s'.succ_cnt = s.succ_cnt := by
  induction ins with
  | nil =>
    intro s s' _ h
    cases h
    exact ⟨rfl, rfl⟩
  | cons i rest ih =>
    intro s s' hins h
    unfold gui_run at h
    by_cases hcl : s.closed = true
    · rw [if_pos hcl] at h
      cases h
      exact ⟨rfl, rfl⟩
    · rw [if_neg hcl] at h
      obtain ⟨h1, h2⟩ := hins i (List.mem_cons_self i rest)
      rw [enter_text_wrong_eq s i.input i.env h1 h2] at h
      have hrest : ∀ j ∈ rest, pyStrip j.input ≠ ({ s with inputbox := "", feedback := Feedback.wrong, start_time := i.env.now } : GuiState).cur_word ∧ pyStrip j.input ≠ "finish practice" := by
        intro j hj
        exact hins j (List.mem_cons_of_mem i hj)
      exact ih { s with inputbox := "", feedback := Feedback.wrong, start_time := i.env.now } s' hrest h

lemma terminal_step_finish_eq (words : List String) (s : TermState) (t idx : Nat) :
    terminal_step words s t "finish practice" idx
      = Except.ok (StepResult.finished s.succ_cnt) := rfl

lemma terminal_step_correct_eq (words : List String) (s : TermState) (t : Nat)
    (input : String) (idx : Nat) (h1 : input ≠ "finish practice")
    (h2 : input = s.rand_word) (hw : words ≠ []) :
    terminal_step words s t input idx = Except.ok (StepResult.next
      { rand_word := drawn words idx, succ_cnt := s.succ_cnt + 1, start_time := t }) := by
  unfold terminal_step
  rw [if_neg h1, if_pos (show input = _ from h2), random_sample_one_eq words hw idx]
  rfl

lemma terminal_step_wrong_eq (words : List String) (s : TermState) (t : Nat)
    (input : String) (idx : Nat) (h1 : input ≠ "finish practice")
    (h2 : input ≠ s.rand_word) :
    terminal_step words s t input idx
      = Except.ok (StepResult.next { s with start_time := t }) := by
  unfold terminal_step
  rw [if_neg h1, if_neg (show ¬input = _ from h2)]

lemma terminal_step_inv_next (words : List String) (s : TermState) (t : Nat)
    (input : String) (idx : Nat) (s' : TermState)
    (h : terminal_step words s t input idx = Except.ok (StepResult.next s')) :
    s'.start_time = t ∧ s.succ_cnt ≤ s'.succ_cnt ∧
      (s'.rand_word = s.rand_word ∨ s'.rand_word ∈ words.map pyStrip) := by
  by_cases h1 : input = "finish practice"
  · subst h1
    rw [terminal_step_finish_eq] at h
    cases h
  · by_cases h2 : input = s.rand_word
    · have hw : words ≠ [] := by
        intro hnil
        subst hnil
        unfold terminal_step at h
        rw [if_neg h1, if_pos (show input = _ from h2)] at h
        simp [random_sample_one] at h
      rw [terminal_step_correct_eq words s t input idx h1 h2 hw] at h
      cases h
      exact ⟨rfl, Nat.le_succ _, Or.inr (drawn_mem words hw idx)⟩
    · rw [terminal_step_wrong_eq words s t input idx h1 h2] at h
      cases h
      exact ⟨rfl, Nat.le_refl _, Or.inl rfl⟩

lemma terminal_step_inv_fin (words : List String) (s : TermState) (t : Nat)
    (input : String) (idx : Nat) (n : Nat)
    (h : terminal_step words s t input idx = Except.ok (StepResult.finished n)) :
    n = s.succ_cnt ∧ input = "finish practice" := by
  by_cases h1 : input = "finish practice"
  · subst h1
    rw [terminal_step_finish_eq] at h
    cases h
    exact ⟨rfl, rfl⟩
  · by_cases h2 : input = s.rand_word
    · unfold terminal_step at h
      rw [if_neg h1, if_pos (show input = _ from h2)] at h
      cases hr : random_sample_one words idx with
      | error e => rw [hr] at h; cases h
      | ok w => rw [hr] at h; cases h
    · rw [terminal_step_wrong_eq words s t input idx h1 h2] at h
      cases h

lemma terminal_run_mono (words : List String) (ins : List TermInput) :
    ∀ s : TermState, ∀ r : StepResult, terminal_run words s ins = Except.ok r →
      (∀ s', r = StepResult.next s' → s.succ_cnt ≤ s'.succ_cnt) ∧
      (∀ n, r = StepResult.finished n → s.succ_cnt ≤ n) := by
  induction ins with
  | nil =>
    intro s r h
    cases h
    constructor
    · intro s' hs'
      cases hs'
      exact Nat.le_refl _
    · intro n hn
      cases hn
  | cons i rest ih =>
    intro s r h
    unfold terminal_run at h
    cases hs : terminal_step words s i.promptTime i.input i.idx with
    | error e => rw [hs] at h; cases h
    | ok r1 =>
      rw [hs] at h
      cases r1 with
      | finished n =>
        cases h
        obtain ⟨hn, -⟩ := terminal_step_inv_fin words s i.promptTime i.input i.idx n hs
        constructor
        · intro s' hs'
          cases hs'
        · intro m hm
          cases hm
          rw [hn]
      | next s2 =>
        obtain ⟨-, hle, -⟩ := terminal_step_inv_next words s i.promptTime i.input i.idx s2 hs
        obtain ⟨ha, hb⟩ := ih s2 r h
        constructor
        · intro s' hs'
          exact Nat.le_trans hle (ha s' hs')
        · intro n hn
          exact Nat.le_trans hle (hb n hn)

lemma terminal_run_wrong (words : List String) (ins : List TermInput) :
    ∀ s : TermState, ∀ r : StepResult,
      (∀ i ∈ ins, i.input ≠ s.rand_word ∧ i.input ≠ "finish practice") →
      terminal_run words s ins = Except.ok r →
      ∃ s', r = StepResult.next s' ∧ s'.rand_word = s.rand_word ∧
        s'.succ_cnt = s.succ_cnt := by
  induction ins with
  | nil =>
    intro s r _ h
    cases h
    exact ⟨s, rfl, rfl, rfl⟩
  | cons i rest ih =>
    intro s r hins h
    unfold terminal_run at h
    obtain ⟨h2, h1⟩ := hins i (List.mem_cons_self i rest)
    rw [terminal_step_wrong_eq words s i.promptTime i.input i.idx h1 h2] at h
    have hrest : ∀ j ∈ rest, j.input ≠ ({ s with start_time := i.promptTime } : TermState).rand_word ∧ j.input ≠ "finish practice" := by
      intro j hj
      exact hins j (List.mem_cons_of_mem i hj)
    obtain ⟨s', hr, hw, hc⟩ := ih { s with start_time := i.promptTime } r hrest h
    exact ⟨s', hr, hw, hc⟩

lemma mywindow_init_inv (words : List String) (env : Env) (s : GuiState)
    (h : mywindow_init words env = Except.ok s) :
    s.words = words ∧ s.succ_cnt = 0 ∧ s.cur_word = drawn words env.idx ∧
      words ≠ [] := by
  unfold mywindow_init at h
  dsimp only at h
  cases hf : fetch_word { words := words, succ_cnt := 0, cur_word := "", start_time := 0, question := "", feedback := Feedback.empty, inputbox := "", closed := false, reported := none } env with
  | error e => rw [hf] at h; cases h
  | ok p =>
    obtain ⟨w, s2⟩ := p
    rw [hf] at h
    cases h
    obtain ⟨hw, hdrawn, hs2⟩ := fetch_word_inv _ env w s2 hf
    subst hs2
    exact ⟨rfl, rfl, hdrawn, hw⟩

lemma terminal_init_inv (words : List String) (idx : Nat) (s : TermState)
    (h : terminal_init words idx = Except.ok s) :
    s.rand_word = drawn words idx ∧ s.succ_cnt = 0 ∧ words ≠ [] := by
  unfold terminal_init at h
  cases words with
  | nil => simp [random_sample_one] at h
  | cons a l =>
    rw [random_sample_one_eq (a :: l) (by simp) idx] at h
    cases h
    exact ⟨rfl, rfl, by simp⟩

lemma drawn_singleton (w : String) (idx : Nat) : drawn [w] idx = pyStrip w := by
  simp [drawn, Nat.mod_one]

/-! ## Claims -/

/-- Claim C1, counterexample: in the terminal front end, when the current
word is the literal exit phrase, typing the exact text of the current word
does not increment `succ_cnt`: the iteration finishes the session with the
count still 0, because line 177 tests the exit phrase before line 180
compares the input against the word. -/
theorem C1_counterexample :
    terminal_step ["finish practice"] tsFP 1 tsFP.rand_word 0
      = Except.ok (StepResult.finished 0) := by decide

/-- Claim C1, amended: typing the exact text of the current word increments
`succ_cnt` by exactly 1 in the GUI always (for states whose current word is
strip-fixed, which every drawn word is), and in the terminal whenever the
current word is not the exit phrase "finish practice"; and `succ_cnt` is
monotonically non-decreasing over any sequence of transitions in either
front end. -/
theorem C1_round_trip :
    (∀ (s : GuiState) (env : Env), pyStrip s.cur_word = s.cur_word → s.words ≠ [] →
      ∃ s', enter_text s s.cur_word env = Except.ok s' ∧ s'.succ_cnt = s.succ_cnt + 1) ∧
    (∀ (s : GuiState) (env : Env) (w : String) (s2 : GuiState),
      fetch_word s env = Except.ok (w, s2) → pyStrip w = w) ∧
    (∀ (words : List String) (s : TermState) (t idx : Nat),
      s.rand_word ≠ "finish practice" → words ≠ [] →
      ∃ s', terminal_step words s t s.rand_word idx = Except.ok (StepResult.next s') ∧
        s'.succ_cnt = s.succ_cnt + 1) ∧
    (∀ (s : GuiState) (ins : List GuiInput) (s' : GuiState),
      gui_run s ins = Except.ok s' → s.succ_cnt ≤ s'.succ_cnt) ∧
    (∀ (words : List String) (s : TermState) (ins : List TermInput) (s' : TermState),
      terminal_run words s ins = Except.ok (StepResult.next s') →
      s.succ_cnt ≤ s'.succ_cnt) ∧
    (∀ (words : List String) (s : TermState) (ins : List TermInput) (n : Nat),
      terminal_run words s ins = Except.ok (StepResult.finished n) →
      s.succ_cnt ≤ n) := by
  refine ⟨?_, ?_, ?_, ?_, ?_, ?_⟩
  · intro s env h hw
    exact ⟨_, enter_text_correct_eq s s.cur_word env h hw, rfl⟩
  · exact fun s env w s2 h => fetch_word_strip_fixed s env w s2 h
  · intro words s t idx hfp hw
    exact ⟨_, terminal_step_correct_eq words s t s.rand_word idx hfp rfl hw, rfl⟩
  · exact fun s ins s' h => gui_run_mono ins s s' h
  · intro words s ins s' h
    exact (terminal_run_mono words ins s _ h).1 s' rfl
  · intro words s ins n h
    exact (terminal_run_mono words ins s _ h).2 n rfl

/-- Witness for C1: with the word "hello" shown in the GUI and the word "a"
shown in the terminal, typing the current word moves the count from 0 to
1. -/
theorem C1_witness :
    (∃ s', enter_text gsHello gsHello.cur_word exEnv = Except.ok s' ∧
      s'.succ_cnt = gsHello.succ_cnt + 1) ∧
    (∃ s', terminal_step ["a"] tsA 2 tsA.rand_word 0 = Except.ok (StepResult.next s') ∧
      s'.succ_cnt = tsA.succ_cnt + 1) :=
  ⟨C1_round_trip.1 gsHello exEnv (by decide) (by decide),
   C1_round_trip.2.2.1 ["a"] tsA 2 0 (by decide) (by decide)⟩

/-- Claim C2, counterexample: a fetched page whose first element of class
dtrans has a child but no text makes `crawl_translation` return the empty
string, which is neither a non-empty translation nor the sentinel. -/
theorem C2_counterexample :
    crawl_translation "abc" (some (Node.elem [Node.elem []])) = some "" ∧
      ("" : String) ≠ "No translation found." :=
  ⟨rfl, by decide⟩

/-- Claim C2, amended: `crawl_translation` always returns a string (never
the Python `None`); the string is exactly the sentinel when no element of
the marker class is found, and otherwise the text of the found element,
which the code does not guarantee to be non-empty. -/
theorem C2_fetch_result :
    ∀ (word : String) (findResult : Option Node), ∃ t,
      crawl_translation word findResult = some t ∧
      (findResult = none → t = "No translation found.") ∧
      (∀ tag, findResult = some tag → t = tag.getText) := by
  intro word findResult
  cases findResult with
  | none =>
    refine ⟨"No translation found.", rfl, ?_, ?_⟩
    · intro _
      rfl
    · intro tag h
      cases h
  | some tag =>
    refine ⟨tag.getText, rfl, ?_, ?_⟩
    · intro h
      cases h
    · intro tag2 h
      cases h
      rfl

/-- Witness for C2: a page carrying a dtrans element with the text 貓
yields exactly that text. -/
theorem C2_witness :
    ∃ t, crawl_translation "cat" (some (Node.elem [Node.text "貓"])) = some t ∧
      ((some (Node.elem [Node.text "貓"]) : Option Node) = none →
        t = "No translation found.") ∧
      (∀ tag, (some (Node.elem [Node.text "貓"]) : Option Node) = some tag →
        t = tag.getText) :=
  C2_fetch_result "cat" (some (Node.elem [Node.text "貓"]))

/-- Claim C3, counterexample: the terminal loop does not keep the original
start time across a wrong attempt: `start_time` is reassigned at the top of
every iteration (line 175), so a wrong answer at prompt time 5 leaves the
state with `start_time` 5, not the original 0. -/
theorem C3_counterexample :
    terminal_step ["a"] tsA 5 "b" 0
      = Except.ok (StepResult.next { rand_word := "a", succ_cnt := 0, start_time := 5 }) ∧
    tsA.start_time = 0 ∧ (5 : Nat) ≠ 0 :=
  ⟨by decide, rfl, by decide⟩

/-- Claim C3, amended: on a wrong answer the GUI sets `start_time` to the
moment of the wrong answer (line 88); the terminal sets `start_time` at the
top of every iteration, to the prompt moment just before the input is read,
so repeated wrong attempts each get a fresh start time rather than the
original one. -/
theorem C3_timer_reset :
    (∀ (s : GuiState) (input : String) (env : Env) (s' : GuiState),
      pyStrip input ≠ s.cur_word → pyStrip input ≠ "finish practice" →
      enter_text s input env = Except.ok s' → s'.start_time = env.now) ∧
    (∀ (words : List String) (s : TermState) (t : Nat) (input : String) (idx : Nat)
      (s' : TermState),
      terminal_step words s t input idx = Except.ok (StepResult.next s') →
      s'.start_time = t) := by
  constructor
  · intro s input env s' h1 h2 h
    rw [enter_text_wrong_eq s input env h1 h2] at h
    cases h
    rfl
  · intro words s t input idx s' h
    exact (terminal_step_inv_next words s t input idx s' h).1

/-- Witness for C3: a wrong answer in `gsHello` at time 7 leaves
`start_time` 7, and a wrong terminal answer at prompt time 9 leaves
`start_time` 9. -/
theorem C3_witness :
    gsHelloWrong.start_time = exEnv.now ∧
    ({ rand_word := "a", succ_cnt := 0, start_time := 9 } : TermState).start_time = 9 :=
  ⟨C3_timer_reset.1 gsHello "xyz" exEnv gsHelloWrong (by decide) (by decide) (by decide),
   C3_timer_reset.2 ["a"] tsA 9 "b" 1 { rand_word := "a", succ_cnt := 0, start_time := 9 }
     (by decide)⟩

/-- Claim C4, counterexample: the input " hello " is raw-unequal to the
current word "hello" and to the exit phrase, yet the GUI strips it before
comparing and counts it correct, incrementing `succ_cnt`; so an input that
is "not equal to current_word and not equal to the exit phrase" can change
`succ_cnt` in the GUI. -/
theorem C4_counterexample :
    (" hello " ≠ "hello") ∧ (" hello " ≠ "finish practice") ∧
    gsHello.cur_word = "hello" ∧ gsHello.succ_cnt = 0 ∧
    guiSucc (enter_text gsHello " hello " exEnv) = some 1 :=
  ⟨by decide, by decide, rfl, rfl, by decide⟩

/-- Claim C4, amended: with incorrectness judged the way each front end
judges it (the GUI compares the stripped input, the terminal the raw line),
an incorrect input leaves both `current_word` and `success_count`
unchanged, and so does any number of repeated incorrect inputs. -/
theorem C4_wrong_idempotent :
    (∀ (s : GuiState) (input : String) (env : Env) (s' : GuiState),
      pyStrip input ≠ s.cur_word → pyStrip input ≠ "finish practice" →
      enter_text s input env = Except.ok s' →
      s'.cur_word = s.cur_word ∧ s'.succ_cnt = s.succ_cnt) ∧
    (∀ (s : GuiState) (ins : List GuiInput) (s' : GuiState),
      (∀ i ∈ ins, pyStrip i.input ≠ s.cur_word ∧ pyStrip i.input ≠ "finish practice") →
      gui_run s ins = Except.ok s' →
      s'.cur_word = s.cur_word ∧ s'.succ_cnt = s.succ_cnt) ∧
    (∀ (words : List String) (s : TermState) (t : Nat) (input : String) (idx : Nat)
      (r : StepResult),
      input ≠ s.rand_word → input ≠ "finish practice" →
      terminal_step words s t input idx = Except.ok r →
      ∃ s', r = StepResult.next s' ∧ s'.rand_word = s.rand_word ∧
        s'.succ_cnt = s.succ_cnt) ∧
    (∀ (words : List String) (s : TermState) (ins : List TermInput) (r : StepResult),
      (∀ i ∈ ins, i.input ≠ s.rand_word ∧ i.input ≠ "finish practice") →
      terminal_run words s ins = Except.ok r →
      ∃ s', r = StepResult.next s' ∧ s'.rand_word = s.rand_word ∧
        s'.succ_cnt = s.succ_cnt) := by
  refine ⟨?_, ?_, ?_, ?_⟩
  · intro s input env s' h1 h2 h
    rw [enter_text_wrong_eq s input env h1 h2] at h
    cases h
    exact ⟨rfl, rfl⟩
  · exact fun s ins s' hins h => gui_run_wrong ins s s' hins h
  · intro words s t input idx r hw hf h
    rw [terminal_step_wrong_eq words s t input idx hf hw] at h
    cases h
    exact ⟨_, rfl, rfl, rfl⟩
  · exact fun words s ins r hins h => terminal_run_wrong words ins s r hins h

/-- Witness for C4: two successive wrong answers in the GUI leave the
current word and the count exactly as they were. -/
theorem C4_witness :
    gui_run gsHello insWrong = Except.ok gsHelloWrong ∧
    gsHelloWrong.cur_word = gsHello.cur_word ∧
    gsHelloWrong.succ_cnt = gsHello.succ_cnt :=
  ⟨by decide, C4_wrong_idempotent.2.1 gsHello insWrong gsHelloWrong (by decide) (by decide)⟩

/-- Claim C5, confirmed: the current word is always a (stripped) member of
the word list: this holds at initialisation of either front end, is
preserved by `enter_text` and by every terminal iteration, and for a
one-word list the presented word is always that word, stripped. -/
theorem C5_cur_word_invariant :
    (∀ (words : List String) (env : Env) (s : GuiState),
      mywindow_init words env = Except.ok s →
      s.cur_word ∈ words.map pyStrip ∧ s.words = words) ∧
    (∀ (s : GuiState) (input : String) (env : Env) (s' : GuiState),
      s.cur_word ∈ s.words.map pyStrip → enter_text s input env = Except.ok s' →
      s'.cur_word ∈ s'.words.map pyStrip ∧ s'.words = s.words) ∧
    (∀ (words : List String) (idx : Nat) (s : TermState),
      terminal_init words idx = Except.ok s → s.rand_word ∈ words.map pyStrip) ∧
    (∀ (words : List String) (s : TermState) (t : Nat) (input : String) (idx : Nat)
      (s' : TermState),
      s.rand_word ∈ words.map pyStrip →
      terminal_step words s t input idx = Except.ok (StepResult.next s') →
      s'.rand_word ∈ words.map pyStrip) ∧
    (∀ (w : String) (env : Env) (s : GuiState),
      mywindow_init [w] env = Except.ok s → s.cur_word = pyStrip w) ∧
    (∀ (w : String) (idx : Nat) (s : TermState),
      terminal_init [w] idx = Except.ok s → s.rand_word = pyStrip w) := by
  refine ⟨?_, ?_, ?_, ?_, ?_, ?_⟩
  · intro words env s h
    obtain ⟨hw, -, hc, hne⟩ := mywindow_init_inv words env s h
    rw [hc]
    exact ⟨drawn_mem words hne env.idx, hw⟩
  · intro s input env s' hmem h
    by_cases hc : pyStrip input = s.cur_word
    · have hw : s.words ≠ [] := by
        intro hnil
        rw [hnil] at hmem
        simp at hmem
      rw [enter_text_correct_eq s input env hc hw] at h
      cases h
      exact ⟨drawn_mem s.words hw env.idx, rfl⟩
    · by_cases hf : pyStrip input = "finish practice"
      · rw [enter_text_finish_eq s input env hc hf] at h
        cases h
        exact ⟨hmem, rfl⟩
      · rw [enter_text_wrong_eq s input env hc hf] at h
        cases h
        exact ⟨hmem, rfl⟩
  · intro words idx s h
    obtain ⟨hr, -, hne⟩ := terminal_init_inv words idx s h
    rw [hr]
    exact drawn_mem words hne idx
  · intro words s t input idx s' hmem h
    rcases (terminal_step_inv_next words s t input idx s' h).2.2 with he | he
    · rw [he]; exact hmem
    · exact he
  · intro w env s h
    obtain ⟨-, -, hc, -⟩ := mywindow_init_inv [w] env s h
    rw [hc, drawn_singleton]
  · intro w idx s h
    obtain ⟨hr, -, -⟩ := terminal_init_inv [w] idx s h
    rw [hr, drawn_singleton]

/-- Witness for C5: starting the GUI on the one-entry list [" hello "]
presents the stripped word "hello", a member of the stripped list. -/
theorem C5_witness :
    mywindow_init [" hello "] exEnv = Except.ok gsInit ∧
    gsInit.cur_word ∈ [" hello "].map pyStrip ∧
    gsInit.cur_word = pyStrip " hello " :=
  ⟨by decide,
   (C5_cur_word_invariant.1 [" hello "] exEnv gsInit (by decide)).1,
   C5_cur_word_invariant.2.2.2.2.1 " hello " exEnv gsInit (by decide)⟩

/-- Claim C6, counterexample: when the current word is itself the exit
phrase, typing "finish practice" in the GUI does not exit: the window stays
open (closed = false), the count is incremented to 1 and nothing is
reported, because line 76 compares with the current word before line 81
checks the exit phrase. -/
theorem C6_counterexample :
    guiView (enter_text gsFP "finish practice" exEnv)
      = some (false, 1, "finish practice", none) := by decide

/-- Claim C6, amended: typing the exit phrase exits and reports exactly the
accumulated `succ_cnt` in the terminal unconditionally, and in the GUI
whenever the stripped input differs from the current word; the rest of the
session state (count, current word, start time, word list) is unchanged by
the exit transition. -/
theorem C6_finish :
    (∀ (s : GuiState) (input : String) (env : Env) (s' : GuiState),
      pyStrip input = "finish practice" → pyStrip input ≠ s.cur_word →
      enter_text s input env = Except.ok s' →
      s'.closed = true ∧ s'.reported = some s.succ_cnt ∧ s'.succ_cnt = s.succ_cnt ∧
      s'.cur_word = s.cur_word ∧ s'.start_time = s.start_time ∧ s'.words = s.words) ∧
    (∀ (words : List String) (s : TermState) (t idx : Nat),
      terminal_step words s t "finish practice" idx
        = Except.ok (StepResult.finished s.succ_cnt)) := by
  constructor
  · intro s input env s' hf hc h
    rw [enter_text_finish_eq s input env hc hf] at h
    cases h
    exact ⟨rfl, rfl, rfl, rfl, rfl, rfl⟩
  · intro words s t idx
    exact terminal_step_finish_eq words s t idx

/-- Witness for C6: with "hello" shown, typing the exit phrase closes the
GUI reporting 0, and the terminal iteration finishes reporting 0. -/
theorem C6_witness :
    enter_text gsHello "finish practice" exEnv = Except.ok gsHelloFin ∧
    gsHelloFin.closed = true ∧ gsHelloFin.reported = some gsHello.succ_cnt ∧
    terminal_step ["a"] tsA 3 "finish practice" 1
      = Except.ok (StepResult.finished tsA.succ_cnt) :=
  ⟨by decide,
   (C6_finish.1 gsHello "finish practice" exEnv gsHelloFin (by decide) (by decide)
     (by decide)).1,
   (C6_finish.1 gsHello "finish practice" exEnv gsHelloFin (by decide) (by decide)
     (by decide)).2.1,
   C6_finish.2 ["a"] tsA 3 1⟩

/-- Claim C7, counterexample: sampling from an empty word list fails with a
`ValueError`-class error (CPython: "Sample larger than population or is
negative"), not an `IndexError`-class one. -/
theorem C7_counterexample :
    random_sample_one [] 0 = Except.error PyError.valueError ∧
      PyError.valueError ≠ PyError.indexError :=
  ⟨rfl, by decide⟩

/-- Claim C7, amended: for an empty word list, drawing a word fails with a
`ValueError`-class error, and the failure propagates unguarded out of both
front ends at startup. -/
theorem C7_empty_list :
    ∀ (idx : Nat) (env : Env),
      random_sample_one [] idx = Except.error PyError.valueError ∧
      mywindow_init [] env = Except.error PyError.valueError ∧
      terminal_init [] idx = Except.error PyError.valueError := by
  intro idx env
  exact ⟨rfl, rfl, rfl⟩

/-- Claim C8, confirmed: `read_file` fails with an `IOError`-class error
exactly when the file cannot be opened; otherwise it returns exactly one
entry per line, trailing newline included: the entries concatenate back to
the file contents, and each entry is non-empty with a newline at most as
its final character. -/
theorem C8_read_file :
    (∀ (fs : String → Option String) (file : String),
      read_file fs file = Except.error PyError.ioError ↔ fs file = none) ∧
    (∀ (fs : String → Option String) (file contents : String),
      fs file = some contents → read_file fs file = Except.ok (pyReadlines contents)) ∧
    (∀ contents : String,
      ((pyReadlines contents).map String.data).flatten = contents.data) ∧
    (∀ contents entry : String, entry ∈ pyReadlines contents →
      entry ≠ "" ∧ ∀ c ∈ entry.data.dropLast, c ≠ '\n') := by
  refine ⟨?_, ?_, pyReadlines_join, pyReadlines_entries⟩
  · intro fs file
    constructor
    · intro h
      cases hf : fs file with
      | none => rfl
      | some c =>
        unfold read_file at h
        rw [hf] at h
        cases h
    · intro h
      unfold read_file
      rw [h]
  · intro fs file c h
    unfold read_file
    rw [h]

/-- Witness for C8: the file "Oxford 5000.txt" with contents "ab\ncd\n"
loads as the two entries "ab\n" and "cd\n", a missing file gives the
`IOError`-class failure, and the entry "ab\n" is non-empty with no interior
newline. -/
theorem C8_witness :
    read_file fsEx "Oxford 5000.txt" = Except.ok ["ab\n", "cd\n"] ∧
    (read_file fsEx "missing.txt" = Except.error PyError.ioError ↔
      fsEx "missing.txt" = none) ∧
    ("ab\n" ≠ "" ∧ ∀ c ∈ ("ab\n").data.dropLast, c ≠ '\n') :=
  ⟨by rw [C8_read_file.2.1 fsEx "Oxford 5000.txt" "ab\ncd\n" (by decide)]; decide,
   C8_read_file.1 fsEx "missing.txt",
   C8_read_file.2.2.2 "ab\ncd\n" "ab\n" (by decide)⟩

/-- Claim C9, confirmed: when the current word is the literal "finish
practice", entering that string makes the GUI count a correct answer and
stay open (equality is tested before the exit command at lines 76 and 81),
while the terminal exits reporting the accumulated count (the exit command
is tested first at line 177). -/
theorem C9_exit_phrase_divergence :
    (enter_text gsFP "finish practice" exEnv = Except.ok gsFPCorrect ∧
      gsFPCorrect.succ_cnt = gsFP.succ_cnt + 1 ∧ gsFPCorrect.closed = false ∧
      gsFPCorrect.cur_word = "finish practice") ∧
    terminal_step ["finish practice"] tsFP5 4 "finish practice" 1
      = Except.ok (StepResult.finished 5) :=
  ⟨⟨by decide, rfl, rfl, rfl⟩, by decide⟩

/-- Claim C10, confirmed: the two front ends are not input-equivalent under
surrounding whitespace: " world " differs from the current word "world"
only by surrounding whitespace, the GUI strips it and counts it correct
(line 74), while the terminal compares the raw line (line 180) and counts
it wrong, leaving the count at 0. -/
theorem C10_whitespace_divergence :
    (" world " ≠ "world") ∧ pyStrip " world " = "world" ∧
    guiSucc (enter_text gsWorld " world " exEnv) = some (gsWorld.succ_cnt + 1) ∧
    terminal_step ["world"] tsWorld 3 " world " 0
      = Except.ok (StepResult.next { rand_word := "world", succ_cnt := 0, start_time := 3 }) :=
  ⟨by decide, by decide, by decide, by decide⟩
